import Mathlib

/-!
Verification development for the scrcpy_helper repository.

The repository holds two Python scripts:
  * `src/wireless_connect.py` — the Wireless Connector (`ScrcpyHelper`):
    resolves a target device (existing wireless device, explicit IP, or USB
    discovery plus a transport-mode switch), runs a scrcpy mirroring
    session, and restores device settings through a one-shot `cleanup`.
  * `src/send_text.py` — the Text Sender (`AdbTextSender`): validates that
    exactly one device is attached and dispatches one broadcast command.

Below, each relevant routine is shallowly embedded as a Lean function.
External command outcomes (adb exit status, command stdout) are passed in
as explicit parameters, mirroring the `subprocess` results the Python code
branches on.
-/

/-- Whether `pat` is a leading segment of `l` (character-wise, used to
implement substring search the way Python's `in` operator behaves). -/
def listStartsWith : List Char → List Char → Bool
  | [], _ => true
  | _ :: _, [] => false
  | p :: ps, h :: hs => p == h && listStartsWith ps hs

/-- Whether `pat` occurs contiguously anywhere inside the second list;
models Python's `pat in line` substring test. -/
def listHasSub (pat : List Char) : List Char → Bool
  | [] => pat.isEmpty
  | h :: hs => listStartsWith pat (h :: hs) || listHasSub pat hs

/-- First whitespace-separated token of a line; models Python's
`line.split()[0]` on a line that has at least one nonblank character. -/
def firstToken (l : String) : String :=
  String.mk (((l.toList).dropWhile Char.isWhitespace).takeWhile
    (fun c => !c.isWhitespace))

/-- Session device state, from the `DeviceInfo` dataclass in
`src/wireless_connect.py` lines 27-35. -/
structure DeviceInfo where
  device_id : String := ("")
  device_ip : String := ("")
  port : Nat := 5656
  rotation : Option Int := none
  mode : String := ("wireless")
  original_stay_awake : Option String := none
  original_lockscreen : Option String := none

/-- MAX_RETRIES constant, `src/wireless_connect.py` line 17. -/
def MAX_RETRIES : Nat := 3

/-- Loop body of `ScrcpyHelper.connect_device` (lines 264-292).
`attemptOk i` tells whether the i-th connect attempt (the `adb connect`
followed by the round-trip `shell exit`) succeeds. `retries` is the loop
counter; `fuel` bounds the recursion (the Python loop runs at most
MAX_RETRIES iterations). Returns (success, number of attempts made). -/
def connect_device_aux (attemptOk : Nat → Bool) : Nat → Nat → Bool × Nat
  | retries, 0 => (false, retries)
  | retries, fuel + 1 =>
    if retries < MAX_RETRIES then
      if attemptOk retries then (true, retries + 1)
      else connect_device_aux attemptOk (retries + 1) fuel
    else (false, retries)

/-- `ScrcpyHelper.connect_device` (lines 264-292): retry loop starting at
`retries = 0`; on exhaustion the multi-line diagnostic is logged and
`False` is returned. Returns (success, attempts made). -/
def connect_device (attemptOk : Nat → Bool) : Bool × Nat :=
  connect_device_aux attemptOk 0 (MAX_RETRIES + 1)


/-- Line filter inside `ScrcpyHelper.get_usb_device` (lines 171-174):
`if line and ":" not in line and "device" in line`. -/
def usbDeviceFilter (l : String) : Bool :=
  !(l == ("")) && !(l.toList.contains ':') &&
    listHasSub (("device").toList) l.toList

/-- `ScrcpyHelper.get_usb_device` (lines 156-192), from the point where the
device-list stdout is parsed. `lines` is `result.stdout.splitlines()`; the
first line (the header) is skipped. On the first matching line the loop
breaks and `line.split()[0]` is the device id. With no match the script
reports an error and calls `sys.exit(1)`. Afterwards a round-trip
`shell echo ok` verifies the device; `statusOk id` is its outcome, a
failure there also ends in `sys.exit(1)`. -/
def get_usb_device (statusOk : String → Bool) (lines : List String) :
    Except Nat String :=
  match (lines.drop 1).find? usbDeviceFilter with
  | none => .error 1
  | some line =>
    let id := firstToken line
    if statusOk id then .ok id else .error 1



/-- ASCII lower-casing of one character, as Python's case-insensitive
regex flag applies to the ASCII letters of the pattern at line 243. -/
def lowerChar (c : Char) : Char :=
  if c.isUpper then Char.ofNat (c.toNat + 32) else c

/-- Case-insensitive match of the Python regex
`restarting in (tcpip|TCP) mode|already running as (tcpip|TCP)` used with
`re.search(..., re.I)` in `ScrcpyHelper.enable_tcpip_mode` (line 243).
Under case folding the alternatives collapse to substring tests: the
`already running as tcpip` alternative is subsumed by
`already running as tcp`. -/
def tcpipPattern (s : String) : Bool :=
  let l := s.toList.map lowerChar
  listHasSub (("restarting in tcpip mode").toList) l ||
  listHasSub (("restarting in tcp mode").toList) l ||
  listHasSub (("already running as tcp").toList) l

/-- Outcome of `ScrcpyHelper.enable_tcpip_mode`. `skipped` is the early
return for non-wireless mode; `failed` covers both `die` calls. -/
inductive TcpipResult where
  | skipped
  | success
  | failed
deriving DecidableEq

/-- `ScrcpyHelper.enable_tcpip_mode` (lines 235-249). `exitOk` is whether
the `adb tcpip <port>` invocation exited with status 0 (otherwise
`run_adb` raises `CalledProcessError` and the handler calls `die`);
`stdout` is the tool's response text, checked against the pattern only
when the invocation itself succeeded. -/
def enable_tcpip_mode (mode : String) (exitOk : Bool) (stdout : String) :
    TcpipResult :=
  if !(mode == ("wireless")) then .skipped
  else if !exitOk then .failed
  else if tcpipPattern stdout then .success
  else .failed


/-- Tail of `ScrcpyHelper.start_scrcpy` (lines 353-359): `subprocess.run`
with `check=True` raises only on a nonzero exit code; the handler logs an
abnormal-termination message when `e.returncode not in [0, 130, 2]` and
never re-raises. Returns (abnormal message reported, exception escapes). -/
def scrcpy_session (returncode : Int) : Bool × Bool :=
  if returncode == 0 then (false, false)
  else (!(([0, 130, 2] : List Int).contains returncode), false)


/-- Truthiness of Python's `line.strip()`: the stripped line is non-empty
exactly when the line holds some non-whitespace character. -/
def lineNonBlank (l : String) : Bool :=
  l.toList.any (fun c => !c.isWhitespace)

/-- Device enumeration in `AdbTextSender.main` (line 91):
`[line.split()[0] for line in result.stdout.splitlines()[1:] if line.strip()]`. -/
def sender_devices (lines : List String) : List String :=
  ((lines.drop 1).filter lineNonBlank).map firstToken

/-- Validation part of `AdbTextSender.main` (lines 89-101). Returns
(broadcast dispatched, exit code when the script exits before
dispatching). Zero devices and more than one device both log an error and
`sys.exit(1)` before `send_text` is reached. -/
def send_text_main (lines : List String) : Bool × Option Nat :=
  let devices := sender_devices lines
  if devices.isEmpty then (false, some 1)
  else if devices.length > 1 then (false, some 1)
  else (true, none)


/-- Observable effects of one run of
`ScrcpyHelper.restore_device_settings` (lines 72-112). The `Written`
fields hold the value written back by the corresponding
`settings put` command, `none` when that setting was left untouched. -/
structure RestoreResult where
  deviceReachable : Bool
  stayAwakeWritten : Option String := none
  sleepKeySent : Bool := false
  powerKeySent : Bool := false
  lockscreenWritten : Option String := none
  completed : Bool := false
deriving DecidableEq

/-- `ScrcpyHelper.restore_device_settings` (lines 72-112). `probeOk` is
the outcome of the initial `shell exit` round trip: when it fails the
routine logs an error and returns at once (lines 77-81). Otherwise the
stay-awake write happens exactly when `original_stay_awake` is populated
(line 84), a SLEEP key event is always attempted with POWER as fallback
when SLEEP fails (`sleepOk`, lines 93-99), and the lockscreen write
happens exactly when `original_lockscreen` is populated (line 104).
Individual command failures are caught and logged, never raised. -/
def restore_device_settings (probeOk sleepOk : Bool) (info : DeviceInfo) :
    RestoreResult :=
  if !probeOk then { deviceReachable := false }
  else
    { deviceReachable := true
      stayAwakeWritten := info.original_stay_awake
      sleepKeySent := true
      powerKeySent := !sleepOk
      lockscreenWritten := info.original_lockscreen
      completed := true }

/-- Target-device resolution in `ScrcpyHelper.cleanup` (lines 120-125):
`target_device` stays `None` (and restoration is skipped) when the mode
is "usb" with an empty `device_id`, or when `device_ip` is empty. -/
def cleanup_target (info : DeviceInfo) : Option String :=
  if info.mode == ("usb") then
    if !(info.device_id == ("")) then some info.device_id else none
  else if !(info.device_ip == ("")) then
    some (info.device_ip ++ (":") ++ toString info.port)
  else none

/-- `ScrcpyHelper.cleanup` (lines 114-131) as a transition on the
`cleanup_done` flag. Returns (new flag value, restoration routine
invoked). A call finding the flag set returns immediately; otherwise the
flag is set and `restore_device_settings` runs iff a target resolves. -/
def cleanup (info : DeviceInfo) (cleanup_done : Bool) : Bool × Bool :=
  if cleanup_done then (cleanup_done, false)
  else (true, (cleanup_target info).isSome)

/-- Number of restoration invocations over `n` successive calls to
`cleanup`, threading the `cleanup_done` flag. -/
def cleanup_calls (info : DeviceInfo) : Nat → Bool → Nat
  | 0, _ => 0
  | n + 1, done =>
    let r := cleanup info done
    (if r.2 then 1 else 0) + cleanup_calls info n r.1

/-- How a run of `ScrcpyHelper.main` (lines 399-417) terminates. -/
inductive TerminationPath where
  | scrcpyExit (code : Int)
  | signalReceived
  | exceptionInBody
deriving DecidableEq

/-- Control-flow model of `ScrcpyHelper.main` (lines 399-417): the SIGINT
and SIGTERM handlers call `self.cleanup()`, and an exception reaching the
`except` clause calls `die` which calls `self.cleanup(1)`. When
`start_scrcpy` returns (it catches the mirroring tool's
`CalledProcessError` for every exit code), the `try` block ends and
`main` falls through without any `cleanup()` call. -/
def main_cleanup_invoked : TerminationPath → Bool
  | .scrcpyExit _ => false
  | .signalReceived => true
  | .exceptionInBody => true

/-! Helper lemmas relating `List.filter` to `List.find?`. -/

theorem find?_of_filter_cons {α : Type} {p : α → Bool} {xs : List α} {a : α}
    {rest : List α} (h : xs.filter p = a :: rest) : xs.find? p = some a := by
  induction xs generalizing rest with
  | nil => simp at h
  | cons x xs ih =>
    by_cases hx : p x = true
    · rw [List.filter_cons_of_pos hx] at h
      injection h with h1 h2
      subst h1
      exact List.find?_cons_of_pos xs hx
    · rw [List.filter_cons_of_neg hx] at h
      rw [List.find?_cons_of_neg xs hx]
      exact ih h

theorem find?_of_filter_nil {α : Type} {p : α → Bool} {xs : List α}
    (h : xs.filter p = []) : xs.find? p = none := by
  rw [List.find?_eq_none]
  intro x hxmem
  have h2 := List.filter_eq_nil_iff.mp h x hxmem
  simpa using h2

theorem cleanup_calls_done (info : DeviceInfo) :
    ∀ n, cleanup_calls info n true = 0
  | 0 => rfl
  | n + 1 => by
    simp [cleanup_calls, cleanup, cleanup_calls_done info n]

/-- Claim C1 fails on the code: when the mirroring session ends by the
mirroring tool exiting on its own (exit code 0, no interrupt signal, no
exception), `ScrcpyHelper.main` falls through its `try` block and the
process exits without invoking `cleanup`, so the settings-restoration
routine never runs on that path. -/
theorem c1_normal_exit_skips_restoration :
    main_cleanup_invoked (TerminationPath.scrcpyExit 0) = false := rfl

/-- Claim C2 as stated is false at N = 3: with 3 consecutive connection
failures followed by a success available on the 4th attempt,
`connect_device` never makes a 4th attempt; it returns failure after
exactly 3 attempts rather than success after 4. -/
theorem c2_counterexample :
    connect_device (fun i => decide (3 ≤ i)) = (false, 3) ∧
      ¬ connect_device (fun i => decide (3 ≤ i)) = (true, 4) := by
  decide

/-- Claim C2 (amended): for every N ≤ 2, N consecutive connection
failures followed by a success yield success after exactly N + 1
attempts; whenever the first 3 attempts all fail, `connect_device`
returns failure after exactly 3 attempts. -/
theorem c2_retry_behavior (attemptOk : Nat → Bool) (N : Nat) :
    (N ≤ 2 → (∀ i, attemptOk i = decide (N ≤ i)) →
      connect_device attemptOk = (true, N + 1)) ∧
    ((∀ i, i < 3 → attemptOk i = false) →
      connect_device attemptOk = (false, 3)) := by
  constructor
  · intro hN h
    interval_cases N <;>
      simp [connect_device, connect_device_aux, MAX_RETRIES, h]
  · intro h
    have h0 := h 0 (by decide)
    have h1 := h 1 (by decide)
    have h2 := h 2 (by decide)
    simp [connect_device, connect_device_aux, MAX_RETRIES, h0, h1, h2]

/-- Witness for C2's amended theorem at N = 1 (one failure, then
success on the second attempt). -/
theorem c2_retry_behavior_witness :
    connect_device (fun i => decide (1 ≤ i)) = (true, 2) :=
  (c2_retry_behavior (fun i => decide (1 ≤ i)) 1).1 (by decide)
    (fun _ => rfl)

/-- Claim C3: across any number of successive `cleanup` calls within one
run the restoration routine is invoked at most once, and any call made
after an earlier call performs no restoration. -/
theorem c3_cleanup_at_most_once (info : DeviceInfo) (n : Nat) (d : Bool) :
    cleanup_calls info n false ≤ 1 ∧
      (cleanup info (cleanup info d).1).2 = false := by
  constructor
  · cases n with
    | zero => simp [cleanup_calls]
    | succ m =>
      simp [cleanup_calls, cleanup, cleanup_calls_done info m]
      split <;> simp
  · cases d <;> simp [cleanup]

/-- Claim C4: when the post-header device-list lines contain exactly one
entry passing the USB filter (non-empty, no colon, containing "device")
and that device answers the follow-up status probe, USB discovery
returns that entry's identifier; when they contain no such entry,
discovery reports an error and exits with code 1. -/
theorem c4_usb_discovery (statusOk : String → Bool) (lines : List String)
    (l : String) :
    ((lines.drop 1).filter usbDeviceFilter = [l] →
      statusOk (firstToken l) = true →
      get_usb_device statusOk lines = .ok (firstToken l)) ∧
    ((lines.drop 1).filter usbDeviceFilter = [] →
      get_usb_device statusOk lines = .error 1) := by
  constructor
  · intro h hok
    have hf := find?_of_filter_cons h
    rw [List.drop_one] at hf
    simp [get_usb_device, hf, hok]
  · intro h
    have hf := find?_of_filter_nil h
    rw [List.drop_one] at hf
    simp [get_usb_device, hf]

/-- Witness for C4 on a concrete device list with one USB entry and on a
header-only list. -/
theorem c4_usb_discovery_witness :
    get_usb_device (fun _ => true)
        [("List of devices attached"), ("ABC123\tdevice")] =
      .ok ("ABC123") ∧
    get_usb_device (fun _ => true) [("List of devices attached")] =
      .error 1 := by
  constructor
  · exact (c4_usb_discovery (fun _ => true)
      [("List of devices attached"), ("ABC123\tdevice")]
      ("ABC123\tdevice")).1 (by rfl) (by rfl)
  · exact (c4_usb_discovery (fun _ => true)
      [("List of devices attached")] ("")).2 (by rfl)

/-- Claim C5: a transport-mode-switch response that does not match the
case-insensitive restarting/already-running pattern is reported as
failed whatever the tool's exit status; the switch succeeds only when
the invocation exits cleanly and the response matches. -/
theorem c5_tcpip_switch (exitOk : Bool) (stdout : String) :
    (tcpipPattern stdout = false →
      enable_tcpip_mode ("wireless") exitOk stdout = .failed) ∧
    (enable_tcpip_mode ("wireless") exitOk stdout = .success →
      tcpipPattern stdout = true ∧ exitOk = true) := by
  have hw : ((("wireless") : String) == ("wireless")) = true := rfl
  constructor
  · intro h
    cases exitOk <;> simp [enable_tcpip_mode, hw, h]
  · intro h
    cases exitOk <;> by_cases hp : tcpipPattern stdout = true <;>
      simp [enable_tcpip_mode, hw, hp] at h
    simp [hp]

/-- Witness for C5 on a concrete non-matching response with exit
status 0. -/
theorem c5_tcpip_switch_witness :
    enable_tcpip_mode ("wireless") true ("error: device unauthorized") =
      .failed :=
  (c5_tcpip_switch true ("error: device unauthorized")).1 (by rfl)

/-- Claim C6: mirroring-tool exit codes 0, 2 and 130 produce no
abnormal-termination report; every other exit code produces the report
but `start_scrcpy` still returns without raising. -/
theorem c6_scrcpy_exit_codes (c : Int) :
    (c ∈ ([0, 2, 130] : List Int) → scrcpy_session c = (false, false)) ∧
    (c ∉ ([0, 2, 130] : List Int) → scrcpy_session c = (true, false)) := by
  constructor
  · intro h
    simp only [List.mem_cons, List.not_mem_nil, or_false] at h
    rcases h with rfl | rfl | rfl <;> decide
  · intro h
    simp only [List.mem_cons, List.not_mem_nil, or_false, not_or] at h
    obtain ⟨h0, h2, h130⟩ := h
    simp [scrcpy_session, h0, h2, h130]

/-- Witness for C6 at exit codes 130 and 1. -/
theorem c6_scrcpy_exit_codes_witness :
    scrcpy_session 130 = (false, false) ∧ scrcpy_session 1 = (true, false) :=
  ⟨(c6_scrcpy_exit_codes 130).1 (by decide),
   (c6_scrcpy_exit_codes 1).2 (by decide)⟩

/-- Claim C7: the Text Sender dispatches the broadcast command only when
exactly one device line is listed; with zero devices or with more than
one device it exits with code 1 without attempting the broadcast. -/
theorem c7_text_sender_device_count (lines : List String) :
    ((sender_devices lines).length = 0 →
      send_text_main lines = (false, some 1)) ∧
    (1 < (sender_devices lines).length →
      send_text_main lines = (false, some 1)) ∧
    ((sender_devices lines).length = 1 →
      send_text_main lines = (true, none)) := by
  refine ⟨?_, ?_, ?_⟩ <;> intro h <;>
    rcases hds : sender_devices lines with _ | ⟨x, xs⟩ <;>
      rw [hds] at h <;> simp_all [send_text_main]

/-- Witness for C7 on concrete device lists with zero, one and two
devices. -/
theorem c7_text_sender_device_count_witness :
    send_text_main [("List of devices attached"), ("")] = (false, some 1) ∧
    send_text_main [("List of devices attached"), ("X\tdevice")] =
      (true, none) ∧
    send_text_main
        [("List of devices attached"), ("X\tdevice"), ("Y\tdevice")] =
      (false, some 1) :=
  ⟨(c7_text_sender_device_count [("List of devices attached"), ("")]).1
      (by rfl),
   (c7_text_sender_device_count
      [("List of devices attached"), ("X\tdevice")]).2.2 (by rfl),
   (c7_text_sender_device_count
      [("List of devices attached"), ("X\tdevice"), ("Y\tdevice")]).2.1
      (by decide)⟩

/-- Claim C8: the stay-awake setting is written back only when its
snapshot field was populated, and likewise for the lockscreen setting;
an unpopulated field leaves the corresponding device setting untouched,
and with the device reachable the written-back values are exactly the
snapshots. -/
theorem c8_restore_only_populated (probeOk sleepOk : Bool)
    (info : DeviceInfo) :
    (info.original_stay_awake = none →
      (restore_device_settings probeOk sleepOk info).stayAwakeWritten =
        none) ∧
    (info.original_lockscreen = none →
      (restore_device_settings probeOk sleepOk info).lockscreenWritten =
        none) ∧
    (probeOk = true →
      (restore_device_settings probeOk sleepOk info).stayAwakeWritten =
          info.original_stay_awake ∧
        (restore_device_settings probeOk sleepOk info).lockscreenWritten =
          info.original_lockscreen) := by
  cases probeOk <;> simp [restore_device_settings]

/-- Witness for C8 with a reachable device and both snapshot fields
unpopulated. -/
theorem c8_restore_only_populated_witness :
    (restore_device_settings true true ({} : DeviceInfo)).stayAwakeWritten =
        none ∧
      (restore_device_settings true true
          ({} : DeviceInfo)).lockscreenWritten = none :=
  ⟨(c8_restore_only_populated true true ({} : DeviceInfo)).1 rfl,
   (c8_restore_only_populated true true ({} : DeviceInfo)).2.1 rfl⟩

/-- Claim C9: with more than one entry passing the USB filter among the
post-header lines, discovery deterministically picks the first matching
line in list order and (when that device answers the status probe)
returns its identifier rather than failing. -/
theorem c9_multi_device_first (statusOk : String → Bool)
    (lines : List String) (l l2 : String) (rest : List String)
    (h : (lines.drop 1).filter usbDeviceFilter = l :: l2 :: rest)
    (hok : statusOk (firstToken l) = true) :
    get_usb_device statusOk lines = .ok (firstToken l) := by
  have hf := find?_of_filter_cons h
  rw [List.drop_one] at hf
  simp [get_usb_device, hf, hok]

/-- Witness for C9 on a device list with two USB entries. -/
theorem c9_multi_device_first_witness :
    get_usb_device (fun _ => true)
        [("List of devices attached"), ("AAA\tdevice"), ("BBB\tdevice")] =
      .ok ("AAA") :=
  c9_multi_device_first (fun _ => true)
    [("List of devices attached"), ("AAA\tdevice"), ("BBB\tdevice")]
    ("AAA\tdevice") ("BBB\tdevice") [] (by rfl) (by rfl)

/-- Claim C10: when the initial `shell exit` probe to the target device
fails, the restoration routine returns normally after logging, with no
settings write and no sleep-trigger key event issued, so the device
settings stay unchanged. -/
theorem c10_unreachable_device_noop (sleepOk : Bool) (info : DeviceInfo) :
    restore_device_settings false sleepOk info =
      { deviceReachable := false, stayAwakeWritten := none,
        sleepKeySent := false, powerKeySent := false,
        lockscreenWritten := none, completed := false } := rfl
